import Mathlib

/-!
# Verification of the perplexity-api client library

A shallow embedding of `src/perplexity-api/main.py` (a small client for a
chat-completion HTTP API) together with proofs about its behaviour.

Modelling conventions:
* Python dicts that are built by literal construction followed by key insertion
  are modelled as association lists (`List (String × Json)`); all keys inserted
  by the source are pairwise distinct, so insertion is appending.
* Python floats in the configuration (`temperature`, `top_p`, the penalties)
  are modelled as `Rat`; the source only copies them around, never computes
  with them, so no floating-point rounding is involved.
* The HTTP transport is modelled as an explicit input (`HttpResult`): the
  outcome that the `requests` library delivers to the client code — either a
  final response with a status code and a body, a connection error, or a
  timeout.  `requests.post(...).raise_for_status()` raises exactly when the
  status code is in `[400, 600)`.
* `Fernet` (in-memory symmetric encryption of the credential) and `json.loads`
  are external libraries; they are modelled from the spec, see
  `fernetEncrypt` / `Json.parse` below.
-/

namespace PerplexityApi

/-- JSON values, the shape of request payloads and decoded responses.
Numbers are modelled as rationals (Python ints and floats of the source,
none of which are computed with). -/
inductive Json where
  | null : Json
  | bool (b : Bool) : Json
  | num (q : Rat) : Json
  | str (s : String) : Json
  | arr (elems : List Json) : Json
  | obj (members : List (String × Json)) : Json

/-- Python truthiness of an `Optional[int]`: `None` and `0` are falsy. -/
def pyTruthyOptInt : Option Int → Bool
  | none => false
  | some n => n != 0

/-- Python truthiness of an `Optional[list]`: `None` and `[]` are falsy. -/
def pyTruthyOptList : Option (List String) → Bool
  | none => false
  | some l => !l.isEmpty

/-- Python truthiness of a `str`: the empty string is falsy. -/
def pyTruthyStr (s : String) : Bool := !s.isEmpty

/-- Python `a or b` on optional strings: returns `a` when `a` is truthy
(non-`None` and non-empty), otherwise `b`. -/
def pyOrStr : Option String → Option String → Option String
  | some s, b => if s.isEmpty then b else some s
  | none, b => b

/-- `PerplexityConfig`: the configuration dataclass of the source, field for
field, with the source's default values.  The source declares no validation
logic: any field combination is constructible. -/
structure PerplexityConfig where
  api_key : String
  base_url : String := "https://api.perplexity.ai/chat/completions"
  model : String := "llama-3.1-sonar-small-128k-online"
  temperature : Rat := 0.2
  top_p : Rat := 0.9
  max_tokens : Option Int := none
  presence_penalty : Rat := 0
  frequency_penalty : Rat := 1
  search_domain_filter : Option (List String) := none
  return_images : Bool := false
  return_related_questions : Bool := false
  search_recency_filter : String := "month"
  top_k : Int := 0
  deriving DecidableEq, Repr

/-- Modelled from the spec: the `cryptography.fernet.Fernet` symmetric
encryption used as in-memory obfuscation of the credential ("a throwaway
symmetric-encryption wrapper purely as in-memory obfuscation").  Byte strings
are modelled as `List Nat` (the code points of the credential, see `strEncode`)
and the Fernet key as a `Nat`; encryption is an injective key-dependent
transformation whose inverse is `fernetDecrypt`.  Only the round-trip property
of the library is relied on. -/
def fernetEncrypt (key : Nat) (data : List Nat) : List Nat :=
  data.map (fun b => b + key)

/-- Modelled from the spec: inverse of `fernetEncrypt` under the same key. -/
def fernetDecrypt (key : Nat) (token : List Nat) : List Nat :=
  token.map (fun b => b - key)

/-- `str.encode()`: a string as a list of code points (byte-string model). -/
def strEncode (s : String) : List Nat :=
  s.toList.map Char.toNat

/-- `bytes.decode()`: inverse of `strEncode` on valid code points. -/
def strDecode (bs : List Nat) : String :=
  ⟨bs.map Char.ofNat⟩

/-- The error taxonomy of the spec.  In the source, `ConfigurationError` is the
`ValueError` raised by `__init__`, `ApiRequestError` is the `RuntimeError`
raised by `query`, and `StreamRequestError` is the `RuntimeError` raised by
`stream_query`; each carries the source's message string. -/
inductive ApiError where
  | configurationError (msg : String) : ApiError
  | apiRequestError (msg : String) : ApiError
  | streamRequestError (msg : String) : ApiError
  deriving DecidableEq, Repr

/-- The `PerplexityAPI` client object: its stored fields after `__init__`
succeeds.  `config` holds the `PerplexityConfig` built by the constructor
(including its `api_key` field), `_key` the generated Fernet key and
`_encrypted_key` the Fernet encryption of the credential. -/
structure PerplexityAPI where
  config : PerplexityConfig
  _key : Nat
  _encrypted_key : List Nat
  deriving DecidableEq, Repr

namespace PerplexityAPI

/-- The message of the `ValueError` raised by `__init__` when no credential is
found. -/
def noKeyMsg : String :=
  "API key not found. Set PPLX_API_KEY environment variable or pass it directly."

/-- `PerplexityAPI.__init__`.  Inputs: the optional `api_key` argument, the
value of the `PPLX_API_KEY` environment variable (the injectable credential
source; `none` when unset), and the Fernet key produced by
`Fernet.generate_key()` (an external source of randomness, hence a parameter).
Output: the constructed client or the raised error, paired with the list of
URLs contacted over the network during construction (the constructor body
issues no HTTP request, so this list is always empty). -/
def init (api_key : Option String) (env_PPLX_API_KEY : Option String)
    (fernetKey : Nat) : Except ApiError PerplexityAPI × List String :=
  let effective := pyOrStr api_key env_PPLX_API_KEY
  match effective with
  | none => (.error (.configurationError noKeyMsg), [])
  | some k =>
    if k.isEmpty then
      (.error (.configurationError noKeyMsg), [])
    else
      (.ok { config := { api_key := k }
             _key := fernetKey
             _encrypted_key := fernetEncrypt fernetKey (strEncode k) }, [])

/-- `PerplexityAPI._get_headers`: the request headers, with the credential
decrypted from the stored Fernet token at the moment of the call. -/
def _get_headers (api : PerplexityAPI) : List (String × String) :=
  [("Accept", "application/json"),
   ("Content-Type", "application/json"),
   ("Authorization", "Bearer " ++ strDecode (fernetDecrypt api._key api._encrypted_key))]

/-- The payload dict built by `PerplexityAPI.query` (lines 82–107): the literal
dict with `stream: False`, then the three conditional keys, then the
`payload.update({...})` of the three always-present keys.  All keys are
distinct, so each insertion appends. -/
def queryPayload (api : PerplexityAPI) (prompt : String)
    (system_prompt : String) : List (String × Json) :=
  let payload : List (String × Json) :=
    [("model", .str api.config.model),
     ("messages", .arr
       [.obj [("role", .str "system"), ("content", .str system_prompt)],
        .obj [("role", .str "user"), ("content", .str prompt)]]),
     ("temperature", .num api.config.temperature),
     ("top_p", .num api.config.top_p),
     ("presence_penalty", .num api.config.presence_penalty),
     ("frequency_penalty", .num api.config.frequency_penalty),
     ("stream", .bool false)]
  let payload := if pyTruthyOptInt api.config.max_tokens then
      payload ++ [("max_tokens", .num (api.config.max_tokens.getD 0))]
    else payload
  let payload := if pyTruthyOptList api.config.search_domain_filter then
      payload ++ [("search_domain_filter",
        .arr (((api.config.search_domain_filter).getD []).map .str))]
    else payload
  let payload := if pyTruthyStr api.config.search_recency_filter then
      payload ++ [("search_recency_filter", .str api.config.search_recency_filter)]
    else payload
  payload ++
    [("return_images", .bool api.config.return_images),
     ("return_related_questions", .bool api.config.return_related_questions),
     ("top_k", .num api.config.top_k)]

/-- The payload dict built by `PerplexityAPI.stream_query` (lines 133–158):
textually the same construction as in `query` except `stream: True`. -/
def streamQueryPayload (api : PerplexityAPI) (prompt : String)
    (system_prompt : String) : List (String × Json) :=
  let payload : List (String × Json) :=
    [("model", .str api.config.model),
     ("messages", .arr
       [.obj [("role", .str "system"), ("content", .str system_prompt)],
        .obj [("role", .str "user"), ("content", .str prompt)]]),
     ("temperature", .num api.config.temperature),
     ("top_p", .num api.config.top_p),
     ("presence_penalty", .num api.config.presence_penalty),
     ("frequency_penalty", .num api.config.frequency_penalty),
     ("stream", .bool true)]
  let payload := if pyTruthyOptInt api.config.max_tokens then
      payload ++ [("max_tokens", .num (api.config.max_tokens.getD 0))]
    else payload
  let payload := if pyTruthyOptList api.config.search_domain_filter then
      payload ++ [("search_domain_filter",
        .arr (((api.config.search_domain_filter).getD []).map .str))]
    else payload
  let payload := if pyTruthyStr api.config.search_recency_filter then
      payload ++ [("search_recency_filter", .str api.config.search_recency_filter)]
    else payload
  payload ++
    [("return_images", .bool api.config.return_images),
     ("return_related_questions", .bool api.config.return_related_questions),
     ("top_k", .num api.config.top_k)]

end PerplexityAPI

/-! ## JSON parsing

Modelled from the spec: the `json.loads` collaborator used by `query` (to
decode the full response body) and by `stream_query` ("Attempt to parse the
remaining text as a JSON value. If parsing fails, silently discard the
line...").  A recursive-descent parser over the code points of the input,
following the JSON grammar: a value is `null`, `true`, `false`, a number, a
string, an array or an object; whitespace is allowed around structural tokens;
the whole input must be consumed (Python's `json.loads` rejects trailing
data). -/

/-- JSON structural whitespace. -/
def isJsonWs (c : Char) : Bool := c = ' ' ∨ c = '\t' ∨ c = '\n' ∨ c = '\r'

/-- Drop leading JSON whitespace. -/
def skipWs : List Char → List Char
  | [] => []
  | c :: cs => if isJsonWs c then skipWs cs else c :: cs

/-- Split off a maximal run of leading decimal digits. -/
def takeDigits : List Char → List Char × List Char
  | [] => ([], [])
  | c :: cs =>
    if c.isDigit then
      let (ds, rest) := takeDigits cs
      (c :: ds, rest)
    else ([], c :: cs)

/-- The value of a run of decimal digits. -/
def digitsToNat (ds : List Char) : Nat :=
  ds.foldl (fun n c => 10 * n + (c.toNat - 48)) 0

/-- Parse a JSON number (`-? int frac? exp?`, where `int` is `0` or a digit
run not starting with `0`), returning its value and the remaining input. -/
def parseNumber (cs : List Char) : Option (Rat × List Char) :=
  let (neg, cs₁) := match cs with
    | '-' :: rest => (true, rest)
    | _ => (false, cs)
  match cs₁ with
  | [] => none
  | c :: rest =>
    if c.isDigit then
      let (intDs, cs₂) := if c = '0' then ([c], rest) else takeDigits cs₁
      let fracStep : Option (List Char × List Char) :=
        match cs₂ with
        | '.' :: rest' =>
          let (fds, rest'') := takeDigits rest'
          if fds.isEmpty then none else some (fds, rest'')
        | _ => some ([], cs₂)
      match fracStep with
      | none => none
      | some (fracDs, cs₃) =>
        let expStep : Option (Int × List Char) :=
          match cs₃ with
          | 'e' :: rest' => parseExponent rest'
          | 'E' :: rest' => parseExponent rest'
          | _ => some (0, cs₃)
        match expStep with
        | none => none
        | some (expVal, cs₄) =>
          let mantissaNum : Int :=
            digitsToNat intDs * 10 ^ fracDs.length + digitsToNat fracDs
          let mantissaDen : Int := 10 ^ fracDs.length
          let (n, d) : Int × Int :=
            if 0 ≤ expVal then (mantissaNum * 10 ^ expVal.toNat, mantissaDen)
            else (mantissaNum, mantissaDen * 10 ^ (-expVal).toNat)
          let value : Rat := Rat.divInt n d
          some (if neg then -value else value, cs₄)
    else none
where
  /-- Sign and digits of an exponent part (after the `e`/`E`). -/
  parseExponent (cs : List Char) : Option (Int × List Char) :=
    let (sign, cs') := match cs with
      | '+' :: rest => ((1 : Int), rest)
      | '-' :: rest => ((-1 : Int), rest)
      | _ => ((1 : Int), cs)
    let (eds, rest) := takeDigits cs'
    if eds.isEmpty then none else some (sign * (digitsToNat eds : Int), rest)

/-- The value of a hexadecimal digit, for `\uXXXX` escapes. -/
def hexDigitVal (c : Char) : Option Nat :=
  if c.isDigit then some (c.toNat - 48)
  else if 'a' ≤ c ∧ c ≤ 'f' then some (c.toNat - 97 + 10)
  else if 'A' ≤ c ∧ c ≤ 'F' then some (c.toNat - 65 + 10)
  else none

/-- Parse the remainder of a JSON string (the opening quote already consumed):
the decoded code points and the input after the closing quote.  Handles the
escapes `\" \\ \/ \b \f \n \r \t` and `\uXXXX`. -/
def parseJsonString : Nat → List Char → Option (List Char × List Char)
  | 0, _ => none
  | _, [] => none
  | fuel + 1, c :: cs =>
    if c = '"' then some ([], cs)
    else if c = '\\' then
      match cs with
      | 'u' :: h₁ :: h₂ :: h₃ :: h₄ :: cs' =>
        match hexDigitVal h₁, hexDigitVal h₂, hexDigitVal h₃, hexDigitVal h₄ with
        | some a, some b, some x, some y =>
          match parseJsonString fuel cs' with
          | some (out, rest) => some (Char.ofNat (((a * 16 + b) * 16 + x) * 16 + y) :: out, rest)
          | none => none
        | _, _, _, _ => none
      | e :: cs' =>
        let esc : Option Char :=
          if e = '"' then some '"'
          else if e = '\\' then some '\\'
          else if e = '/' then some '/'
          else if e = 'b' then some '\x08'
          else if e = 'f' then some '\x0c'
          else if e = 'n' then some '\n'
          else if e = 'r' then some '\r'
          else if e = 't' then some '\t'
          else none
        match esc with
        | some d =>
          match parseJsonString fuel cs' with
          | some (out, rest) => some (d :: out, rest)
          | none => none
        | none => none
      | [] => none
    else
      match parseJsonString fuel cs with
      | some (out, rest) => some (c :: out, rest)
      | none => none

/-- The states of the recursive-descent parser: a value, the elements of an
array being accumulated, or the members of an object being accumulated. -/
inductive ParseMode where
  | value : ParseMode
  | elems (acc : List Json) : ParseMode
  | members (acc : List (String × Json)) : ParseMode

/-- One fueled parsing machine for values, array elements and object members
(fuel decreases on every recursive call, so the definition is structural and
computes by kernel reduction). -/
def parseCore : Nat → ParseMode → List Char → Option (Json × List Char)
  | 0, _, _ => none
  | fuel + 1, .value, cs =>
    match skipWs cs with
    | [] => none
    | '{' :: rest =>
      (match skipWs rest with
       | '}' :: rest' => some (.obj [], rest')
       | _ => parseCore fuel (.members []) rest)
    | '[' :: rest =>
      (match skipWs rest with
       | ']' :: rest' => some (.arr [], rest')
       | _ => parseCore fuel (.elems []) rest)
    | '"' :: rest =>
      (match parseJsonString (fuel + 1) rest with
       | some (out, rest') => some (.str ⟨out⟩, rest')
       | none => none)
    | 't' :: 'r' :: 'u' :: 'e' :: rest => some (.bool true, rest)
    | 'f' :: 'a' :: 'l' :: 's' :: 'e' :: rest => some (.bool false, rest)
    | 'n' :: 'u' :: 'l' :: 'l' :: rest => some (.null, rest)
    | cs' =>
      (match parseNumber cs' with
       | some (q, rest) => some (.num q, rest)
       | none => none)
  | fuel + 1, .elems acc, cs =>
    (match parseCore fuel .value cs with
     | some (v, rest) =>
       (match skipWs rest with
        | ',' :: rest' => parseCore fuel (.elems (acc ++ [v])) rest'
        | ']' :: rest' => some (.arr (acc ++ [v]), rest')
        | _ => none)
     | none => none)
  | fuel + 1, .members acc, cs =>
    (match skipWs cs with
     | '"' :: rest =>
       (match parseJsonString (fuel + 1) rest with
        | some (key, rest') =>
          (match skipWs rest' with
           | ':' :: rest'' =>
             (match parseCore fuel .value rest'' with
              | some (v, rest₃) =>
                (match skipWs rest₃ with
                 | ',' :: rest₄ => parseCore fuel (.members (acc ++ [(⟨key⟩, v)])) rest₄
                 | '}' :: rest₄ => some (.obj (acc ++ [(⟨key⟩, v)]), rest₄)
                 | _ => none)
              | none => none)
           | _ => none)
        | none => none)
     | _ => none)

/-- `json.loads` on a list of code points: parse one JSON value and require
that only whitespace follows (Python raises on extra data). -/
def jsonLoads (cs : List Char) : Option Json :=
  match parseCore (3 * cs.length + 8) .value cs with
  | some (v, rest) => if (skipWs rest).isEmpty then some v else none
  | none => none

/-- `json.loads` on a string. -/
def Json.parse (s : String) : Option Json := jsonLoads s.toList

/-! ## The HTTP operations -/

/-- The outcome delivered by `requests.post` to the client code: a final
response (status code and body, of type `β`: the full text for `query`, the
lines of `iter_lines` for `stream_query`), or a raised connection error or
timeout whose description is `msg`. -/
inductive HttpResult (β : Type) where
  | response (status : Nat) (body : β) : HttpResult β
  | connectionError (msg : String) : HttpResult β
  | timeout (msg : String) : HttpResult β
  deriving DecidableEq, Repr

/-- `Response.raise_for_status` of the `requests` library: raises an
`HTTPError` exactly when the status code is in `[400, 500)` (client error) or
`[500, 600)` (server error); returns the exception's description, `none` when
nothing is raised.  (The library's message also carries the server-supplied
reason phrase, which is not modelled.) -/
def raiseForStatusMsg (status : Nat) (url : String) : Option String :=
  if 400 ≤ status ∧ status < 500 then
    some (toString status ++ " Client Error for url: " ++ url)
  else if 500 ≤ status ∧ status < 600 then
    some (toString status ++ " Server Error for url: " ++ url)
  else none

/-- Python `str.strip()` whitespace (the characters stripped by default). -/
def pyIsSpace (c : Char) : Bool :=
  c = ' ' ∨ c = '\t' ∨ c = '\n' ∨ c = '\r' ∨ c = '\x0b' ∨ c = '\x0c'

/-- Python `str.strip()`: remove leading and trailing whitespace. -/
def pyStrip (cs : List Char) : List Char :=
  ((cs.dropWhile pyIsSpace).reverse.dropWhile pyIsSpace).reverse

namespace PerplexityAPI

/-- The per-line body of the `for line in response.iter_lines()` loop of
`stream_query` (lines 169–178): skip the line unless it is non-empty with
non-whitespace content (`if line and line.strip():`); strip a leading
`data: ` prefix (`data[6:]`); `json.loads` the rest, and on a
`JSONDecodeError` skip the line (`continue`).  `some v` means the loop
yields `v`, `none` that it yields nothing for this line. -/
def processStreamLine (line : String) : Option Json :=
  let cs := line.toList
  if cs ≠ [] ∧ pyStrip cs ≠ [] then
    let data := if List.isPrefixOf ("data: ".toList) cs then cs.drop 6 else cs
    jsonLoads data
  else none

/-- All values yielded by `stream_query`'s decoding loop over the lines of the
response body, in order. -/
def processStreamLines (lines : List String) : List Json :=
  lines.filterMap processStreamLine

/-- `PerplexityAPI.query` (lines 70–119), given the transport outcome of its
single `requests.post`: on a raised connection error or timeout, or on a
`raise_for_status` failure, the `except requests.exceptions.RequestException`
handler re-raises `RuntimeError("API request failed: " + str(e))`; otherwise
`response.json()` parses the body (a parse failure there also surfaces as an
error; this branch is outside every claim). -/
def query (api : PerplexityAPI) (_prompt : String) (_system_prompt : String)
    (transport : HttpResult String) : Except ApiError Json :=
  match transport with
  | .connectionError msg => .error (.apiRequestError ("API request failed: " ++ msg))
  | .timeout msg => .error (.apiRequestError ("API request failed: " ++ msg))
  | .response status body =>
    match raiseForStatusMsg status api.config.base_url with
    | some msg => .error (.apiRequestError ("API request failed: " ++ msg))
    | none =>
      match Json.parse body with
      | some v => .ok v
      | none => .error (.apiRequestError ("API request failed: Expecting value"))

/-- `PerplexityAPI.stream_query` (lines 121–181), given the transport outcome
of its single `requests.post(..., stream=True)`: on a raised connection error
or timeout, or on a `raise_for_status` failure, the handler re-raises
`RuntimeError("Streaming request failed: " + str(e))`; otherwise the fully
consumed generator yields `processStreamLines` of the body's lines. -/
def stream_query (api : PerplexityAPI) (_prompt : String) (_system_prompt : String)
    (transport : HttpResult (List String)) : Except ApiError (List Json) :=
  match transport with
  | .connectionError msg => .error (.streamRequestError ("Streaming request failed: " ++ msg))
  | .timeout msg => .error (.streamRequestError ("Streaming request failed: " ++ msg))
  | .response status body =>
    match raiseForStatusMsg status api.config.base_url with
    | some msg => .error (.streamRequestError ("Streaming request failed: " ++ msg))
    | none => .ok (processStreamLines body)

end PerplexityAPI

/-- Lookup of a key in a payload dict (first match; the source's dicts have
distinct keys). -/
def lookupKey (k : String) : List (String × Json) → Option Json
  | [] => none
  | (k', v) :: rest => if k' = k then some v else lookupKey k rest


/-- A sample client: the value constructed by `init` with the credential
"sk-test", no environment variable, and Fernet key 7.  Used to instantiate
universally quantified results at a concrete client. -/
def sampleApi : PerplexityAPI :=
  { config := { api_key := "sk-test" }
    _key := 7
    _encrypted_key := fernetEncrypt 7 (strEncode "sk-test") }

/-- `sampleApi` with `max_tokens` set to 42 in its configuration. -/
def sampleApiMaxTokens : PerplexityAPI :=
  { sampleApi with config := { sampleApi.config with max_tokens := some 42 } }

/-- The cause description `str(e)` of the exception raised inside `query` for
a given transport outcome, relative to the request URL: the message of a
raised connection error or timeout, or the `raise_for_status` message for a
status in `[400, 600)`; `none` when nothing transport-level is raised. -/
def transportFailureCause (t : HttpResult String) (url : String) : Option String :=
  match t with
  | .connectionError m => some m
  | .timeout m => some m
  | .response s _ => raiseForStatusMsg s url

/-- Looking a key up in an appended dict: the first list wins. -/
theorem lookupKey_append (k : String) (l₁ l₂ : List (String × Json)) :
    lookupKey k (l₁ ++ l₂) =
      match lookupKey k l₁ with
      | some v => some v
      | none => lookupKey k l₂ := by
  induction l₁ with
  | nil => simp [lookupKey]
  | cons p rest ih =>
    obtain ⟨k', v⟩ := p
    by_cases h : k' = k <;> simp [lookupKey, h, ih]

/-- Decrypting with the key that encrypted recovers the original string:
the in-memory Fernet round trip of the credential is the identity. -/
theorem fernet_roundtrip (fk : Nat) (s : String) :
    strDecode (fernetDecrypt fk (fernetEncrypt fk (strEncode s))) = s := by
  have h : ∀ cs : List Char,
      (((cs.map Char.toNat).map (fun b => b + fk)).map (fun b => b - fk)).map Char.ofNat = cs := by
    intro cs
    induction cs with
    | nil => rfl
    | cons c rest ih =>
      simp only [List.map_cons, ih, List.cons.injEq, and_true]
      simp [Nat.add_sub_cancel, Char.ofNat_toNat]
  unfold strDecode fernetDecrypt fernetEncrypt strEncode
  rw [h]
  rfl

/-- Claim C1: for a streaming response body of the three lines
`data: \x7b"a":1\x7d`, `not json`, `data: \x7b"a":2\x7d` (braces written as
escapes), fully consuming the sequence returned by `stream_query` yields
exactly the two JSON values `a ↦ 1` then `a ↦ 2`, in order, with the
malformed middle line silently skipped and no error raised. -/
theorem stream_query_skips_malformed_line (api : PerplexityAPI)
    (prompt system_prompt : String) :
    api.stream_query prompt system_prompt
      (.response 200 ["data: \x7b\"a\":1\x7d", "not json", "data: \x7b\"a\":2\x7d"]) =
      .ok [Json.obj [("a", Json.num 1)], Json.obj [("a", Json.num 2)]] := rfl

/-- Claim C2, counterexample: HTTP 300 (Multiple Choices, delivered to the
client code when the response carries no Location to follow) is a non-2xx
status, yet `query` treats it as success: it parses the body and returns a
result instead of raising `ApiRequestError`. -/
theorem query_300_no_error :
    sampleApi.query "p" "s" (.response 300 "\x7b\x7d") = .ok (Json.obj []) := rfl

/-- Claim C2 (amended): for every transport failure of the synchronous call
that the code treats as such — a connection error, a timeout, or an HTTP
status in `[400, 600)` — `query` fails with an `ApiRequestError` carrying the
underlying cause description, and returns no partial result. -/
theorem query_transport_failure (api : PerplexityAPI) (prompt system_prompt : String)
    (t : HttpResult String) (cause : String)
    (h : transportFailureCause t api.config.base_url = some cause) :
    api.query prompt system_prompt t =
      .error (.apiRequestError ("API request failed: " ++ cause)) := by
  cases t with
  | connectionError m => simp [transportFailureCause] at h; simp [PerplexityAPI.query, h]
  | timeout m => simp [transportFailureCause] at h; simp [PerplexityAPI.query, h]
  | response s body =>
    simp only [transportFailureCause] at h
    simp [PerplexityAPI.query, h]

/-- Claim C2, witness: at HTTP 500, `query` fails with the `ApiRequestError`
carrying the server-error description. -/
theorem query_transport_failure_witness :
    sampleApi.query "p" "s" (.response 500 "") =
      .error (.apiRequestError ("API request failed: " ++
        "500 Server Error for url: https://api.perplexity.ai/chat/completions")) :=
  query_transport_failure sampleApi "p" "s" (.response 500 "")
    "500 Server Error for url: https://api.perplexity.ai/chat/completions" rfl

/-- Claim C3: with no credential argument and no credential in the
environment, construction fails with the `ConfigurationError` (the source's
`ValueError`) and the constructor issues no network call (its trace of
contacted URLs is empty). -/
theorem init_no_credential (fernetKey : Nat) :
    PerplexityAPI.init none none fernetKey =
      (.error (.configurationError PerplexityAPI.noKeyMsg), []) := rfl

/-- Claim C4: for every client, prompt and system_prompt, the `messages`
field of the payload built by `query` and by `stream_query` is exactly the
two-element ordered sequence (system message with the system prompt, then
user message with the prompt). -/
theorem payload_messages (api : PerplexityAPI) (prompt system_prompt : String) :
    lookupKey "messages" (api.queryPayload prompt system_prompt) =
      some (.arr [.obj [("role", .str "system"), ("content", .str system_prompt)],
                  .obj [("role", .str "user"), ("content", .str prompt)]]) ∧
    lookupKey "messages" (api.streamQueryPayload prompt system_prompt) =
      some (.arr [.obj [("role", .str "system"), ("content", .str system_prompt)],
                  .obj [("role", .str "user"), ("content", .str prompt)]]) := by
  constructor <;>
  · first
    | unfold PerplexityAPI.queryPayload
    | unfold PerplexityAPI.streamQueryPayload
    split_ifs <;> simp [lookupKey_append, lookupKey]

/-- Claim C5: when the configuration's `max_tokens` is unset, neither built
payload contains a `max_tokens` key; when it is set to a positive integer
`n`, both contain it with exactly the value `n`. -/
theorem payload_max_tokens (api : PerplexityAPI) (prompt system_prompt : String) :
    (api.config.max_tokens = none →
      lookupKey "max_tokens" (api.queryPayload prompt system_prompt) = none ∧
      lookupKey "max_tokens" (api.streamQueryPayload prompt system_prompt) = none) ∧
    (∀ n : Int, api.config.max_tokens = some n → 0 < n →
      lookupKey "max_tokens" (api.queryPayload prompt system_prompt) = some (.num (n : Rat)) ∧
      lookupKey "max_tokens" (api.streamQueryPayload prompt system_prompt) = some (.num (n : Rat))) := by
  constructor
  · intro h
    constructor <;>
    · first
      | unfold PerplexityAPI.queryPayload
      | unfold PerplexityAPI.streamQueryPayload
      simp only [h, pyTruthyOptInt, Bool.false_eq_true, if_false]
      split_ifs <;> simp [lookupKey_append, lookupKey]
  · intro n h hn
    have hn' : pyTruthyOptInt (some n) = true := by
      simp [pyTruthyOptInt]; omega
    constructor <;>
    · first
      | unfold PerplexityAPI.queryPayload
      | unfold PerplexityAPI.streamQueryPayload
      simp only [h, hn', if_true]
      split_ifs <;> simp [lookupKey_append, lookupKey]

/-- Claim C5, witness: `sampleApi` (with `max_tokens` unset) builds a payload
with no `max_tokens` key, and `sampleApiMaxTokens` (with `max_tokens` 42)
builds one carrying exactly 42. -/
theorem payload_max_tokens_witness :
    lookupKey "max_tokens" (sampleApi.queryPayload "p" "s") = none ∧
    lookupKey "max_tokens" (sampleApiMaxTokens.queryPayload "p" "s") =
      some (.num ((42 : Int) : Rat)) :=
  ⟨((payload_max_tokens sampleApi "p" "s").1 rfl).1,
   ((payload_max_tokens sampleApiMaxTokens "p" "s").2 42 rfl (by decide)).1⟩

/-- Claim C6: for every client, prompt and system_prompt, the payloads built
by `query` and `stream_query` agree on every key other than `stream`, and the
`stream` key is `false` for `query` and `true` for `stream_query`. -/
theorem payloads_differ_only_in_stream (api : PerplexityAPI) (prompt system_prompt : String) :
    (∀ k, k ≠ "stream" →
      lookupKey k (api.queryPayload prompt system_prompt) =
        lookupKey k (api.streamQueryPayload prompt system_prompt)) ∧
    lookupKey "stream" (api.queryPayload prompt system_prompt) = some (.bool false) ∧
    lookupKey "stream" (api.streamQueryPayload prompt system_prompt) = some (.bool true) := by
  refine ⟨fun k hk => ?_, ?_, ?_⟩
  · have hs : ("stream" = k) = False := eq_false (fun e => hk e.symm)
    unfold PerplexityAPI.queryPayload PerplexityAPI.streamQueryPayload
    split_ifs <;> simp [lookupKey_append, lookupKey, hs]
  · unfold PerplexityAPI.queryPayload
    split_ifs <;> simp [lookupKey_append, lookupKey]
  · unfold PerplexityAPI.streamQueryPayload
    split_ifs <;> simp [lookupKey_append, lookupKey]

/-- Claim C6, witness: at the key `model` the two payloads of `sampleApi`
agree, and its `query` payload carries `stream: false`. -/
theorem payloads_differ_only_in_stream_witness :
    lookupKey "model" (sampleApi.queryPayload "p" "s") =
      lookupKey "model" (sampleApi.streamQueryPayload "p" "s") ∧
    lookupKey "stream" (sampleApi.queryPayload "p" "s") = some (.bool false) :=
  ⟨(payloads_differ_only_in_stream sampleApi "p" "s").1 "model" (by decide),
   (payloads_differ_only_in_stream sampleApi "p" "s").2.1⟩

/-- Claim C7, counterexample: construction with the credential "sk-test"
succeeds, and the resulting client's stored `config.api_key` field holds the
plaintext credential — refuting that no stored field holds it. -/
theorem init_stores_plaintext_concrete :
    (PerplexityAPI.init (some "sk-test") none 7).1 = .ok sampleApi ∧
    sampleApi.config.api_key = "sk-test" := ⟨rfl, rfl⟩

/-- Claim C7 (amended): after successful construction the client retains the
selected credential in plaintext in its `config.api_key` field, and
additionally stores the Fernet key and the encrypted copy from which
`_get_headers` produces the plaintext at header-building time. -/
theorem init_retains_plaintext_and_encrypted (a e : Option String) (fk : Nat)
    (c : PerplexityAPI) (h : (PerplexityAPI.init a e fk).1 = .ok c) :
    pyOrStr a e = some c.config.api_key ∧
    c._key = fk ∧
    c._encrypted_key = fernetEncrypt fk (strEncode c.config.api_key) := by
  unfold PerplexityAPI.init at h
  cases hpy : pyOrStr a e with
  | none => rw [hpy] at h; cases h
  | some k =>
    rw [hpy] at h
    by_cases hk : k.isEmpty
    · simp [hk] at h
    · simp [hk] at h
      subst h
      exact ⟨rfl, rfl, rfl⟩

/-- Claim C7, witness: the amended statement at the concrete construction
producing `sampleApi`. -/
theorem init_retains_plaintext_and_encrypted_witness :
    pyOrStr (some "sk-test") none = some sampleApi.config.api_key ∧
    sampleApi._key = 7 ∧
    sampleApi._encrypted_key = fernetEncrypt 7 (strEncode sampleApi.config.api_key) :=
  init_retains_plaintext_and_encrypted (some "sk-test") none 7 sampleApi rfl

/-- Claim C8: every client successfully constructed with credential `k` builds
exactly the three headers Accept, Content-Type and `Authorization: Bearer k` —
the in-memory encrypt-then-decrypt round trip of the credential yields `k`
unchanged.  (`_get_headers` is the single header builder both call modes
use.) -/
theorem get_headers_exact (k : String) (e : Option String) (fk : Nat)
    (c : PerplexityAPI) (hk : ¬ k.isEmpty) (h : (PerplexityAPI.init (some k) e fk).1 = .ok c) :
    c._get_headers =
      [("Accept", "application/json"),
       ("Content-Type", "application/json"),
       ("Authorization", "Bearer " ++ k)] := by
  unfold PerplexityAPI.init at h
  simp only [pyOrStr, hk, if_false] at h
  simp [hk] at h
  subst h
  simp [PerplexityAPI._get_headers, fernet_roundtrip]

/-- Claim C8, witness: the headers of `sampleApi`, built from the credential
"sk-test". -/
theorem get_headers_exact_witness :
    ¬ ("sk-test".isEmpty = true) ∧
    sampleApi._get_headers =
      [("Accept", "application/json"),
       ("Content-Type", "application/json"),
       ("Authorization", "Bearer " ++ "sk-test")] :=
  ⟨by decide, get_headers_exact "sk-test" none 7 sampleApi (by decide) rfl⟩

/-- Claim C9, counterexample: `PerplexityConfig` enforces no range on
`temperature` — a configuration with temperature 2 is constructible, so not
every constructible configuration has temperature in `[0, 1]`. -/
theorem config_temperature_not_constrained :
    ∃ cfg : PerplexityConfig, ¬ (0 ≤ cfg.temperature ∧ cfg.temperature ≤ 1) :=
  ⟨{ api_key := "k", temperature := 2 }, by norm_num⟩

/-- Claim C9 (amended): the documented range is not enforced by construction,
but every configuration the client constructor itself produces carries the
default temperature 0.2, which lies in `[0, 1]`. -/
theorem init_temperature_in_range (a e : Option String) (fk : Nat)
    (c : PerplexityAPI) (h : (PerplexityAPI.init a e fk).1 = .ok c) :
    c.config.temperature = 0.2 ∧ 0 ≤ c.config.temperature ∧ c.config.temperature ≤ 1 := by
  unfold PerplexityAPI.init at h
  cases hpy : pyOrStr a e with
  | none => rw [hpy] at h; cases h
  | some key =>
    rw [hpy] at h
    by_cases hk : key.isEmpty
    · simp [hk] at h
    · simp [hk] at h
      subst h
      refine ⟨rfl, by norm_num, by norm_num⟩

/-- Claim C9, witness: the amended statement at the construction producing
`sampleApi`. -/
theorem init_temperature_in_range_witness :
    sampleApi.config.temperature = 0.2 ∧
    0 ≤ sampleApi.config.temperature ∧ sampleApi.config.temperature ≤ 1 :=
  init_temperature_in_range (some "sk-test") none 7 sampleApi rfl

/-- Claim C10: constructing with the explicit credential `""` and nothing in
the environment behaves exactly like supplying no credential at all — the
empty string is treated as absent, and the same no-credential
`ConfigurationError` is raised. -/
theorem init_empty_key_same_as_absent (fernetKey : Nat) :
    PerplexityAPI.init (some "") none fernetKey = PerplexityAPI.init none none fernetKey ∧
    PerplexityAPI.init (some "") none fernetKey =
      (.error (.configurationError PerplexityAPI.noKeyMsg), []) := ⟨rfl, rfl⟩

end PerplexityApi
